import Mathlib

/-!
Verification of the AI meeting-agent repository: a shallow embedding of the
chat API route (duration parsing, calendar availability check, the POST
booking decision flow of the handler) and of the conversational state
machine of the voice-chat client component, together with theorems settling the specified
properties.
-/

namespace MeetingAgent

/-! ## String helpers (JavaScript semantics) -/

/-- Tests whether the list `p` is an initial segment of `l`. -/
def listStartsWith : List Char → List Char → Bool
  | [], _ => true
  | _ :: _, [] => false
  | a :: p, b :: l => a == b && listStartsWith p l

/-- Tests whether `p` occurs contiguously anywhere inside `l`
(JavaScript `String.prototype.includes` on char lists). -/
def listHasSub (p : List Char) : List Char → Bool
  | [] => listStartsWith p []
  | c :: t => listStartsWith p (c :: t) || listHasSub p t

/-- JavaScript `s.includes(pat)`. -/
def strIncludes (s pat : String) : Bool :=
  listHasSub pat.toList s.toList

/-- Numeric value of a leading run of decimal digits; `none` when the run is
empty (the `NaN` case of `parseInt`). -/
def leadingDigitsVal (cs : List Char) : Option Nat :=
  let ds := cs.takeWhile (fun c => c.isDigit)
  if ds.isEmpty then none
  else some (ds.foldl (fun a c => a * 10 + (c.toNat - 48)) 0)

/-- JavaScript `parseInt(s, 10)`: skip leading whitespace, accept an optional
sign, then read leading decimal digits; `none` models `NaN`. -/
def jsParseInt (s : String) : Option Int :=
  let cs := s.toList.dropWhile (fun c =>
    c == ' ' || c == '\t' || c == '\n' || c == '\r')
  match cs with
  | '-' :: rest => (leadingDigitsVal rest).map (fun n => -(n : Int))
  | '+' :: rest => (leadingDigitsVal rest).map (fun n => (n : Int))
  | _ => (leadingDigitsVal cs).map (fun n => (n : Int))

/-- JavaScript `a || b` on an optional string (`undefined` and `""` are
falsy). -/
def jsOrDefault (a : Option String) (b : String) : String :=
  match a with
  | some s => if s = "" then b else s
  | none => b

/-- ASCII lowercase of one character (JavaScript `toLowerCase` restricted to
the ASCII range the duration keywords live in). -/
def jsLowerChar (c : Char) : Char :=
  if 'A' ≤ c && c ≤ 'Z' then Char.ofNat (c.toNat + 32) else c

/-- JavaScript `s.toLowerCase()`. -/
def jsToLower (s : String) : String :=
  String.mk (s.toList.map jsLowerChar)

/-- Whitespace recognized by `trim`. -/
def jsWhitespace (c : Char) : Bool :=
  c == ' ' || c == '\t' || c == '\n' || c == '\r'

/-- JavaScript `s.trim()`: strip whitespace from both ends. -/
def jsTrim (s : String) : String :=
  String.mk (((s.toList.dropWhile jsWhitespace).reverse.dropWhile
    jsWhitespace).reverse)

/-! ## Duration parsing (`parseDurationString` in `route.ts`) -/

/-- Embeds `parseDurationString` from `src/app/api/chat/route.ts`: derives a
duration in minutes from the free-text duration field. -/
def parseDurationString (durationStr : Option String) : Int :=
  match durationStr with
  | none => 30
  | some s =>
    if s = "" then 30
    else
      let lower := jsToLower (jsTrim s)
      let directNum := jsParseInt lower
      if strIncludes lower "hour" || strIncludes lower "hr" then
        match directNum with
        | some n => if 1 ≤ n then n * 60 else 30
        | none => 30
      else if strIncludes lower "min" then
        match directNum with
        | some n => if 5 ≤ n then n else 30
        | none => 30
      else
        match directNum with
        | some n => if 0 < n then (if n < 5 then 5 else n) else 30
        | none => 30

/-- The duration normalization as the specification words it: default 30 when
absent; hour/hr multiplies the leading numeral by 60 (fallback 30 without a
valid numeral ≥ 1); min uses the leading numeral when ≥ 5 else 30; a bare
positive numeral is clamped up to a minimum of 5; otherwise 30. -/
def specDurationNormalization (durationStr : Option String) : Int :=
  match durationStr with
  | none => 30
  | some s =>
    if s = "" then 30
    else
      let lower := jsToLower (jsTrim s)
      let directNum := jsParseInt lower
      if strIncludes lower "hour" || strIncludes lower "hr" then
        match directNum with
        | some n => if 1 ≤ n then n * 60 else 30
        | none => 30
      else if strIncludes lower "min" then
        match directNum with
        | some n => if 5 ≤ n then n else 30
        | none => 30
      else
        match directNum with
        | some n => if 0 < n then max 5 n else 30
        | none => 30

/-! ## Calendar availability (`checkAvailability` in `route.ts`)

Times are modelled as integers (minutes or milliseconds since an epoch —
the `Date` comparisons in the source are total-order comparisons of
timestamps, so any linearly ordered carrier is faithful). -/

/-- One fetched scheduled event: its status string and its
`[start_time, end_time)` interval. -/
structure CalEvent where
  status : String
  start_time : Int
  end_time : Int
  deriving DecidableEq, Repr

/-- The overlap test the source applies to one event against the requested
window `[rs, re)`:
`(rs >= es && rs < ee) || (re > es && re <= ee) || (rs <= es && re >= ee)`. -/
def overlapsRequested (rs re : Int) (e : CalEvent) : Bool :=
  (decide (e.start_time ≤ rs) && decide (rs < e.end_time)) ||
  (decide (e.start_time < re) && decide (re ≤ e.end_time)) ||
  (decide (rs ≤ e.start_time) && decide (e.end_time ≤ re))

/-- The event loop of `checkAvailability`: skip events whose status is not
`"active"`, return `false` on the first overlap, `true` when the collection
is exhausted. -/
def checkAvailabilityLoop (events : List CalEvent) (rs re : Int) : Bool :=
  match events with
  | [] => true
  | e :: rest =>
    if e.status ≠ "active" then checkAvailabilityLoop rest rs re
    else if overlapsRequested rs re e then false
    else checkAvailabilityLoop rest rs re

/-- Outcome of the scheduled-events fetch as seen by `checkAvailability`. -/
inductive FetchOutcome where
  /-- The fetch resolved with `response.ok` and this event collection. -/
  | success (events : List CalEvent)
  /-- The fetch resolved but `response.ok` was false. -/
  | httpFailure
  /-- The fetch (or any step of the body) threw. -/
  | thrown
  deriving DecidableEq, Repr

/-- Embeds `checkAvailability` from `src/app/api/chat/route.ts`. Credentials
are the two environment variables (`none` = unset, and the empty string is
falsy in the `!CALENDLY_API_KEY || !CALENDLY_USER_URI` guard); the network
interaction is summarized by a `FetchOutcome`; `rs` is the requested start
and `durationMin` the requested duration in minutes. -/
def checkAvailability (apiKey userUri : Option String)
    (fetch : FetchOutcome) (rs durationMin : Int) : Bool :=
  match apiKey, userUri with
  | some k, some u =>
    if k = "" || u = "" then false
    else
      match fetch with
      | .success events => checkAvailabilityLoop events rs (rs + durationMin)
      | .httpFailure => false
      | .thrown => false
  | _, _ => false

/-- The mathematical closed-open overlap relation between the requested
window `[rs, re)` and an event window: nonempty intersection. -/
def intervalsOverlap (rs re es ee : Int) : Prop :=
  rs < ee ∧ es < re

/-! ## The POST handler of the chat route -/

/-- The module-level `meetingDetails` record: five optional string fields
(`none` = key absent). -/
structure MeetingDetails where
  attendee : Option String
  date : Option String
  time : Option String
  duration : Option String
  purpose : Option String
  deriving DecidableEq, Repr

/-- The empty record the route starts with and resets to after a booking. -/
def emptyMeetingDetails : MeetingDetails :=
  ⟨none, none, none, none, none⟩

/-- One field of the JavaScript object spread: a key present in the extracted
object overwrites, an absent key keeps the prior value. -/
def spreadField (prior ext : Option String) : Option String :=
  match ext with
  | some v => some v
  | none => prior

/-- Embeds `meetingDetails = { ...meetingDetails, ...parsedResponse.details }`
field by field. -/
def mergeDetails (prior ext : MeetingDetails) : MeetingDetails :=
  ⟨spreadField prior.attendee ext.attendee,
   spreadField prior.date ext.date,
   spreadField prior.time ext.time,
   spreadField prior.duration ext.duration,
   spreadField prior.purpose ext.purpose⟩

/-- The `type` discriminator of the parsed model reply. -/
inductive ParsedType where
  | meeting_request
  | general_response
  | greeting
  | other
  deriving DecidableEq, Repr

/-- The shape of a successfully `JSON.parse`d model reply. -/
structure ParsedResponse where
  ptype : ParsedType
  details : Option MeetingDetails
  missingInfo : Option (List String)
  response : String
  deriving DecidableEq, Repr

/-- Outcome of the single language-model call: the completion resolved with
this content string (`""` models both empty and `null` content — both are
falsy in the `!aiResponse` guard), or the call threw. -/
inductive ModelOutcome where
  | ok (content : String)
  | thrown
  deriving DecidableEq, Repr

/-- Outcome of `createOneOffEvent`: a scheduling URL, or any of its error
results (missing credentials, non-success response, absent URL, exception). -/
inductive BookingOutcome where
  | booked (url : String)
  | failed
  deriving DecidableEq, Repr

/-- The apology returned when the model produced no content. -/
def apologyMsg : String :=
  "I apologize, but I couldn\x27t process your request. Please try again."

/-- The fixed reply when the requested slot is unavailable. -/
def notAvailableMsg : String :=
  "The requested time slot is not available. Please choose another date or time."

/-- The reply when the parsed object has an unknown `type`. -/
def invalidMsg : String :=
  "Invalid response from the AI assistant. Please try again."

/-- The reply when `JSON.parse` of the model content throws. -/
def parseErrorMsg : String :=
  "Error processing the response. Please try again."

/-- The `error` field of the 500 response on a thrown model call. -/
def failedMsg : String :=
  "Failed to get AI response"

/-- The confirmation text appended to the reply after a successful booking. -/
def scheduledSuffix (url : String) : String :=
  "\n\nI\x27ve scheduled your meeting. You can find the details here: " ++ url

/-- Observable outcome of one POST request: HTTP status, the `response` and
`error` body fields, the value of the shared `meetingDetails` record after
the request, and a trace of the booking flow — whether `checkAvailability`
was called and with which duration argument (`none` = `NaN`), and whether
`createOneOffEvent` was called and which duration it derives. -/
structure PostResult where
  status : Nat
  response : Option String
  error : Option String
  newDetails : MeetingDetails
  availabilityChecked : Bool
  availDuration : Option Int
  bookingAttempted : Bool
  bookDuration : Option Int
  deriving DecidableEq, Repr

/-- Embeds the `POST` handler of `src/app/api/chat/route.ts`. `prior` is the
shared `meetingDetails` record on entry; `model` the completion outcome;
`parsed` the result of `JSON.parse` on the content (`none` = the parse
throws); `avail` the boolean `checkAvailability` resolves to; `booking` the
`createOneOffEvent` outcome. -/
def chatPOST (prior : MeetingDetails) (isInitial : Bool)
    (model : ModelOutcome) (parsed : Option ParsedResponse)
    (avail : Bool) (booking : BookingOutcome) : PostResult :=
  match model with
  | .thrown =>
    { status := 500, response := none, error := some failedMsg,
      newDetails := prior, availabilityChecked := false, availDuration := none,
      bookingAttempted := false, bookDuration := none }
  | .ok content =>
    if content = "" then
      { status := 200, response := some apologyMsg, error := none,
        newDetails := prior, availabilityChecked := false, availDuration := none,
        bookingAttempted := false, bookDuration := none }
    else if isInitial then
      { status := 200, response := some content, error := none,
        newDetails := prior, availabilityChecked := false, availDuration := none,
        bookingAttempted := false, bookDuration := none }
    else
      match parsed with
      | none =>
        { status := 200, response := some parseErrorMsg, error := none,
          newDetails := prior, availabilityChecked := false, availDuration := none,
          bookingAttempted := false, bookDuration := none }
      | some p =>
        match p.ptype, p.details with
        | .meeting_request, some d =>
          let merged := mergeDetails prior d
          match p.missingInfo with
          | some [] =>
            let aDur := jsParseInt (jsOrDefault merged.duration "30")
            if avail then
              match booking with
              | .booked url =>
                { status := 200,
                  response := some (p.response ++ scheduledSuffix url),
                  error := none, newDetails := emptyMeetingDetails,
                  availabilityChecked := true, availDuration := aDur,
                  bookingAttempted := true,
                  bookDuration := some (parseDurationString merged.duration) }
              | .failed =>
                { status := 200, response := some p.response, error := none,
                  newDetails := merged, availabilityChecked := true,
                  availDuration := aDur, bookingAttempted := true,
                  bookDuration := some (parseDurationString merged.duration) }
            else
              { status := 200, response := some notAvailableMsg, error := none,
                newDetails := merged, availabilityChecked := true,
                availDuration := aDur, bookingAttempted := false,
                bookDuration := none }
          | _ =>
            { status := 200, response := some p.response, error := none,
              newDetails := merged, availabilityChecked := false,
              availDuration := none, bookingAttempted := false,
              bookDuration := none }
        | .general_response, _ =>
          { status := 200, response := some p.response, error := none,
            newDetails := prior, availabilityChecked := false,
            availDuration := none, bookingAttempted := false,
            bookDuration := none }
        | .greeting, _ =>
          { status := 200, response := some p.response, error := none,
            newDetails := prior, availabilityChecked := false,
            availDuration := none, bookingAttempted := false,
            bookDuration := none }
        | _, _ =>
          { status := 200, response := some invalidMsg, error := none,
            newDetails := prior, availabilityChecked := false,
            availDuration := none, bookingAttempted := false,
            bookDuration := none }

/-! ## The client conversational state machine (`AIAgentChat.tsx`)

The behaviour of the component is event-driven: React state setters, the closure
variables of `startListening` (`finalTranscript`, `greetingSent`,
`noInputTimer`) and the recognition/synthesis callbacks are modelled as one
record, and each browser callback as one step of a transition function. -/

/-- The visible agent state of the component. -/
inductive AgentState where
  | idle
  | listening
  | thinking
  | speaking
  deriving DecidableEq, Repr

/-- Which utterance is in flight: the fixed greeting (spoken with
`resetAfterSpeaking = false` and an `onEnd` that re-arms the no-input
timer) or a backend reply (spoken with the default
`resetAfterSpeaking = true`). -/
inductive UtteranceKind where
  | greeting
  | reply
  deriving DecidableEq, Repr

/-- The observable state of the component: React state (`agentState`,
`isListening`, `transcript`, `response`), the closure variables of
`startListening`, whether recognition is running (no `stop()`/end since the
last `start()`), the number of unresolved backend calls, and the utterance
in flight. -/
structure ClientState where
  agentState : AgentState
  isListening : Bool
  transcript : String
  response : String
  finalTranscript : String
  greetingSent : Bool
  timerArmed : Bool
  recognitionActive : Bool
  outstandingCalls : Nat
  utterance : Option UtteranceKind
  deriving DecidableEq, Repr

/-- The state on mount. -/
def initClientState : ClientState :=
  ⟨.idle, false, "", "", "", false, false, false, 0, none⟩

/-- The discrete events driving the component. -/
inductive ClientEvent where
  /-- The start button: `startListening` creates fresh closure variables and
  calls `recognition.start()`. -/
  | startClick
  /-- `recognition.onstart`. -/
  | recStart
  /-- `recognition.onresult` carrying the final transcript segments of the
  event (interim segments do not touch `finalTranscript`). -/
  | result (finals : List String)
  /-- The 5-second no-input timeout elapses. -/
  | timerFire
  /-- The `/api/chat` fetch of `handleUserInput` resolves successfully with
  this `response` field. -/
  | backendOk (reply : String)
  /-- The fetch throws or resolves non-ok. -/
  | backendErr
  /-- `utterance.onend` for the utterance in flight. -/
  | utteranceEnd
  /-- `recognition.onerror`. -/
  | recError
  /-- `recognition.onend`. -/
  | recEnd
  deriving DecidableEq, Repr

/-- `finalTranscript += transcript + " "` over the final segments of one
result event. -/
def appendFinals (acc : String) (finals : List String) : String :=
  finals.foldl (fun a t => a ++ t ++ " ") acc

/-- One step of the component: the effect of each callback in
`AIAgentChat.tsx` on the observable state. -/
def clientStep (s : ClientState) (ev : ClientEvent) : ClientState :=
  match ev with
  | .startClick =>
    { s with finalTranscript := "", greetingSent := false,
             timerArmed := false, recognitionActive := true }
  | .recStart =>
    { s with agentState := .listening, isListening := true,
             timerArmed := true }
  | .result finals =>
    let newFinal := appendFinals s.finalTranscript finals
    let s1 := { s with timerArmed := false, finalTranscript := newFinal,
                       transcript := newFinal }
    if jsTrim newFinal ≠ "" then
      { s1 with recognitionActive := false, agentState := .thinking,
                outstandingCalls := s1.outstandingCalls + 1 }
    else
      { s1 with timerArmed := true }
  | .timerFire =>
    if s.timerArmed = false then s
    else if s.greetingSent = false then
      { s with timerArmed := false, greetingSent := true,
               agentState := .speaking, utterance := some .greeting }
    else
      { s with timerArmed := false, recognitionActive := false,
               agentState := .idle, isListening := false }
  | .backendOk reply =>
    { s with outstandingCalls := s.outstandingCalls - 1,
             agentState := .speaking, response := reply,
             utterance := some .reply }
  | .backendErr =>
    { s with outstandingCalls := s.outstandingCalls - 1,
             agentState := .idle }
  | .utteranceEnd =>
    match s.utterance with
    | some .reply =>
      { s with agentState := .idle, response := "", utterance := none }
    | some .greeting =>
      { s with timerArmed := true, utterance := none }
    | none => s
  | .recError =>
    { s with timerArmed := false, isListening := false, agentState := .idle }
  | .recEnd =>
    { s with timerArmed := false, isListening := false, agentState := .idle,
             recognitionActive := false }

/-! ## Theorems -/

theorem ite_min_clamp (n : Int) : (if n < 5 then (5:Int) else n) = max 5 n := by
  split <;> omega

/-- C2: duration parsing follows the specified normalization — 30 when absent
or empty; hour/hr multiplies the leading numeral by 60 (30 without a numeral
at least 1); min takes the numeral when at least 5, else 30; a bare positive
numeral is clamped up to a minimum of 5; 30 otherwise — and the specified
examples evaluate as stated. -/
theorem parseDurationString_correct :
    (∀ d : Option String,
      parseDurationString d = specDurationNormalization d) ∧
    parseDurationString none = 30 ∧
    parseDurationString (some "") = 30 ∧
    parseDurationString (some "2 hours") = 120 ∧
    parseDurationString (some "45 min") = 45 ∧
    parseDurationString (some "3 min") = 30 ∧
    parseDurationString (some "10") = 10 ∧
    parseDurationString (some "2") = 5 := by
  refine ⟨?_, by decide, by decide, by decide, by decide, by decide,
    by decide, by decide⟩
  intro d
  cases d with
  | none => rfl
  | some s =>
    simp only [parseDurationString, specDurationNormalization]
    split
    · rfl
    · cases hn : jsParseInt (jsToLower (jsTrim s)) with
      | none => simp [hn]
      | some n => simp [hn, ite_min_clamp]

instance (rs re es ee : Int) : Decidable (intervalsOverlap rs re es ee) :=
  inferInstanceAs (Decidable (_ ∧ _))

theorem overlapsRequested_true_iff (rs re : Int) (e : CalEvent) :
    overlapsRequested rs re e = true ↔
      ((e.start_time ≤ rs ∧ rs < e.end_time) ∨
       (e.start_time < re ∧ re ≤ e.end_time) ∨
       (rs ≤ e.start_time ∧ e.end_time ≤ re)) := by
  simp [overlapsRequested, or_assoc]

theorem checkAvailabilityLoop_false_iff (events : List CalEvent)
    (rs re : Int) :
    checkAvailabilityLoop events rs re = false ↔
      ∃ e ∈ events, e.status = "active" ∧ overlapsRequested rs re e = true := by
  induction events with
  | nil => simp [checkAvailabilityLoop]
  | cons e rest ih =>
    by_cases hst : e.status = "active"
    · by_cases hov : overlapsRequested rs re e = true
      · simp [checkAvailabilityLoop, hst, hov]
      · simp [checkAvailabilityLoop, hst, hov, ih]
    · simp [checkAvailabilityLoop, hst, ih]

/-- C1: with valid credentials and a successful fetch, `checkAvailability`
returns `false` iff some active fetched event satisfies one of the three
clauses of the source (requested start in `[eventStart, eventEnd)`,
requested end in `(eventStart, eventEnd]`, or the requested window containing
the event window); and for a positive duration and well-formed active events
it returns `true` whenever no active event window overlaps the requested
closed-open window. -/
theorem checkAvailability_overlap_iff (k u : String) (rs dur : Int)
    (events : List CalEvent) (hk : k ≠ "") (hu : u ≠ "") :
    (checkAvailability (some k) (some u) (.success events) rs dur = false ↔
      ∃ e ∈ events, e.status = "active" ∧
        ((e.start_time ≤ rs ∧ rs < e.end_time) ∨
         (e.start_time < rs + dur ∧ rs + dur ≤ e.end_time) ∨
         (rs ≤ e.start_time ∧ e.end_time ≤ rs + dur))) ∧
    (0 < dur →
      (∀ e ∈ events, e.status = "active" → e.start_time < e.end_time) →
      (∀ e ∈ events, e.status = "active" →
        ¬ intervalsOverlap rs (rs + dur) e.start_time e.end_time) →
      checkAvailability (some k) (some u) (.success events) rs dur = true) := by
  have hred : checkAvailability (some k) (some u) (.success events) rs dur =
      checkAvailabilityLoop events rs (rs + dur) := by
    simp [checkAvailability, hk, hu]
  constructor
  · rw [hred, checkAvailabilityLoop_false_iff]
    constructor
    · rintro ⟨e, he, hst, hov⟩
      exact ⟨e, he, hst, (overlapsRequested_true_iff rs (rs + dur) e).1 hov⟩
    · rintro ⟨e, he, hst, hov⟩
      exact ⟨e, he, hst, (overlapsRequested_true_iff rs (rs + dur) e).2 hov⟩
  · intro hdur hwf hnone
    rw [hred]
    rcases hb : checkAvailabilityLoop events rs (rs + dur) with _ | _
    · exfalso
      rcases (checkAvailabilityLoop_false_iff events rs (rs + dur)).1 hb with
        ⟨e, he, hst, hov⟩
      have hlt := hwf e he hst
      have hno := hnone e he hst
      rcases (overlapsRequested_true_iff rs (rs + dur) e).1 hov with
        h1 | h2 | h3
      · exact hno ⟨by omega, by omega⟩
      · exact hno ⟨by omega, by omega⟩
      · exact hno ⟨by omega, by omega⟩
    · rfl

/-- Witness for C1 at a concrete input: one active event well clear of the
requested window, on which the second conjunct yields availability. -/
theorem checkAvailability_overlap_iff_witness :
    checkAvailability (some "key") (some "user")
      (.success [⟨"active", 100, 130⟩]) 0 30 = true :=
  (checkAvailability_overlap_iff "key" "user" 0 30
      [⟨"active", 100, 130⟩] (by decide) (by decide)).2
    (by decide) (by decide) (by decide)

/-- C6: `checkAvailability` is fail-closed — missing or blank credentials, a
non-success fetch response, or a thrown fetch all yield `false` (the
function is total, so no exception escapes). -/
theorem checkAvailability_fail_closed (apiKey userUri : Option String)
    (fetch : FetchOutcome) (rs dur : Int) :
    ((apiKey = none ∨ apiKey = some "" ∨ userUri = none ∨ userUri = some "") →
      checkAvailability apiKey userUri fetch rs dur = false) ∧
    (fetch = .httpFailure →
      checkAvailability apiKey userUri fetch rs dur = false) ∧
    (fetch = .thrown →
      checkAvailability apiKey userUri fetch rs dur = false) := by
  refine ⟨?_, ?_, ?_⟩
  · rintro (rfl | rfl | rfl | rfl)
    · cases userUri <;> rfl
    · cases userUri <;> simp [checkAvailability]
    · cases apiKey <;> rfl
    · cases apiKey <;> simp [checkAvailability]
  · rintro rfl
    cases apiKey <;> cases userUri <;> simp [checkAvailability]
  · rintro rfl
    cases apiKey <;> cases userUri <;> simp [checkAvailability]

/-- Witness for C6 at concrete inputs: a missing key, a failed fetch, and a
thrown fetch each evaluate to `false`. -/
theorem checkAvailability_fail_closed_witness :
    checkAvailability none (some "user") (.success []) 0 30 = false ∧
    checkAvailability (some "key") (some "user") .httpFailure 0 30 = false ∧
    checkAvailability (some "key") (some "user") .thrown 0 30 = false :=
  ⟨(checkAvailability_fail_closed none (some "user") (.success []) 0 30).1
      (Or.inl rfl),
   (checkAvailability_fail_closed (some "key") (some "user") .httpFailure
      0 30).2.1 rfl,
   (checkAvailability_fail_closed (some "key") (some "user") .thrown
      0 30).2.2 rfl⟩

/-- C5: on a complete meeting request whose availability check is negative,
the handler replies with the fixed not-available message over HTTP 200, does
not attempt a booking, and leaves the shared record at the merged details —
it is not cleared. -/
theorem post_unavailable_slot (prior : MeetingDetails) (content : String)
    (p : ParsedResponse) (d : MeetingDetails) (booking : BookingOutcome)
    (hc : content ≠ "") (hty : p.ptype = .meeting_request)
    (hd : p.details = some d) (hmi : p.missingInfo = some []) :
    (chatPOST prior false (.ok content) (some p) false booking).response =
      some notAvailableMsg ∧
    (chatPOST prior false (.ok content) (some p) false booking).status = 200 ∧
    (chatPOST prior false (.ok content) (some p) false booking).bookingAttempted
      = false ∧
    (chatPOST prior false (.ok content) (some p) false booking).newDetails =
      mergeDetails prior d := by
  obtain ⟨pt, pd, pmi, pr⟩ := p
  simp only at hty hd hmi
  subst hty hd hmi
  simp [chatPOST, hc]

/-- Witness for C5 at a concrete complete meeting request. -/
theorem post_unavailable_slot_witness :
    (chatPOST emptyMeetingDetails false (.ok "x")
      (some ⟨.meeting_request,
        some ⟨some "Sam", some "2025-03-01", some "10:00", some "30", some "sync"⟩,
        some [], "Checking."⟩) false .failed).response = some notAvailableMsg :=
  (post_unavailable_slot emptyMeetingDetails "x" _
    ⟨some "Sam", some "2025-03-01", some "10:00", some "30", some "sync"⟩
    .failed (by decide) rfl rfl rfl).1

/-- C7 counterexample: a thrown language-model call on a non-initial request
is answered with HTTP 500 and no `response` string — not the HTTP-success
apology the claim asserts. -/
theorem post_model_thrown_counterexample :
    (chatPOST emptyMeetingDetails false .thrown none true .failed).status =
      500 ∧
    (chatPOST emptyMeetingDetails false .thrown none true .failed).response =
      none ∧
    (chatPOST emptyMeetingDetails false .thrown none true .failed).error =
      some failedMsg := ⟨rfl, rfl, rfl⟩

/-- C7 amended: a model call that succeeds with empty or absent content is
recovered locally as an HTTP-200 generic apology (no retry: the handler
issues exactly one model call per request), while a thrown model call
surfaces as an HTTP 500 with a diagnostic error body rather than a recovered
reply. -/
theorem post_model_failure_handling (prior : MeetingDetails)
    (parsed : Option ParsedResponse) (avail : Bool)
    (booking : BookingOutcome) :
    ((chatPOST prior false (.ok "") parsed avail booking).status = 200 ∧
     (chatPOST prior false (.ok "") parsed avail booking).response =
       some apologyMsg ∧
     (chatPOST prior false (.ok "") parsed avail booking).error = none ∧
     (chatPOST prior false (.ok "") parsed avail booking).newDetails = prior) ∧
    ((chatPOST prior false .thrown parsed avail booking).status = 500 ∧
     (chatPOST prior false .thrown parsed avail booking).error =
       some failedMsg ∧
     (chatPOST prior false .thrown parsed avail booking).response = none) :=
  ⟨⟨rfl, rfl, rfl, rfl⟩, ⟨rfl, rfl, rfl⟩⟩

/-- C10: on an initial request whose model call succeeds with non-empty
content, the handler returns that content verbatim as the `response` field,
for every possible parse outcome — the content is never JSON-parsed. -/
theorem post_initial_verbatim (prior : MeetingDetails) (content : String)
    (parsed : Option ParsedResponse) (avail : Bool)
    (booking : BookingOutcome) (hc : content ≠ "") :
    (chatPOST prior true (.ok content) parsed avail booking).response =
      some content ∧
    (chatPOST prior true (.ok content) parsed avail booking).status = 200 ∧
    (chatPOST prior true (.ok content) parsed avail booking).newDetails =
      prior := by
  simp [chatPOST, hc]

/-- Witness for C10: a greeting that comes back as a JSON object string is
forwarded literally. -/
theorem post_initial_verbatim_witness :
    (chatPOST emptyMeetingDetails true
      (.ok "\x7b\"type\": \"greeting\", \"response\": \"Hello!\"\x7d")
      none true .failed).response =
      some "\x7b\"type\": \"greeting\", \"response\": \"Hello!\"\x7d" :=
  (post_initial_verbatim emptyMeetingDetails _ none true .failed
    (by decide)).1

theorem spreadField_isSome (p e : Option String) (h : p.isSome = true) :
    (spreadField p e).isSome = true := by
  cases e with
  | none => simpa [spreadField] using h
  | some v => rfl

theorem spreadField_absent (p e : Option String) (h : e = none) :
    spreadField p e = p := by
  subst h; rfl

/-- C8 counterexample: a present, non-blank field (`attendee = "Sam"`) is
blanked by a merge whose extracted object carries the empty string for that
field — the spread overwrites with whatever value is present, blank
included. -/
theorem mergeDetails_blanks_counterexample :
    (mergeDetails ⟨some "Sam", none, none, none, none⟩
      ⟨some "", none, none, none, none⟩).attendee = some "" ∧
    (some "" : Option String) ≠ some "Sam" := ⟨rfl, by decide⟩

/-- C8 amended: the merge never removes a field — a field present before the
merge is still present afterwards — and a field changes only when the
extracted object supplies that field (the supplied value may, however, be
blank). -/
theorem mergeDetails_nondestructive (prior ext : MeetingDetails) :
    (prior.attendee.isSome = true →
      (mergeDetails prior ext).attendee.isSome = true) ∧
    (ext.attendee = none →
      (mergeDetails prior ext).attendee = prior.attendee) ∧
    (prior.date.isSome = true →
      (mergeDetails prior ext).date.isSome = true) ∧
    (ext.date = none → (mergeDetails prior ext).date = prior.date) ∧
    (prior.time.isSome = true →
      (mergeDetails prior ext).time.isSome = true) ∧
    (ext.time = none → (mergeDetails prior ext).time = prior.time) ∧
    (prior.duration.isSome = true →
      (mergeDetails prior ext).duration.isSome = true) ∧
    (ext.duration = none →
      (mergeDetails prior ext).duration = prior.duration) ∧
    (prior.purpose.isSome = true →
      (mergeDetails prior ext).purpose.isSome = true) ∧
    (ext.purpose = none →
      (mergeDetails prior ext).purpose = prior.purpose) :=
  ⟨spreadField_isSome _ _, spreadField_absent _ _,
   spreadField_isSome _ _, spreadField_absent _ _,
   spreadField_isSome _ _, spreadField_absent _ _,
   spreadField_isSome _ _, spreadField_absent _ _,
   spreadField_isSome _ _, spreadField_absent _ _⟩

/-- Witness for the amended C8 at concrete records: a present attendee
survives a merge, and a field the extracted object omits keeps its prior
value. -/
theorem mergeDetails_nondestructive_witness :
    (mergeDetails ⟨some "Sam", some "2025-03-01", none, none, none⟩
      ⟨some "Alex", none, none, none, none⟩).attendee.isSome = true ∧
    (mergeDetails ⟨some "Sam", some "2025-03-01", none, none, none⟩
      ⟨some "Alex", none, none, none, none⟩).date = some "2025-03-01" :=
  ⟨(mergeDetails_nondestructive ⟨some "Sam", some "2025-03-01", none, none,
      none⟩ ⟨some "Alex", none, none, none, none⟩).1 rfl,
   (mergeDetails_nondestructive ⟨some "Sam", some "2025-03-01", none, none,
      none⟩ ⟨some "Alex", none, none, none, none⟩).2.2.2.1 rfl⟩

/-- C9: the availability check derives its duration with
`parseInt(duration || "30")` while the booking derives its own with
`parseDurationString(duration)`, and the two disagree — on "2 hours" the
check uses 2 minutes while the booking books 120; on a non-numeric text the
check gets `NaN` while the booking books 30; a complete meeting request with
duration "2 hours" therefore checks a different slot than it books. -/
theorem durations_inequivalent :
    jsParseInt (jsOrDefault (some "2 hours") "30") = some 2 ∧
    parseDurationString (some "2 hours") = 120 ∧
    jsParseInt (jsOrDefault (some "half an hour") "30") = none ∧
    parseDurationString (some "half an hour") = 30 ∧
    (∃ d : Option String,
      jsParseInt (jsOrDefault d "30") ≠ some (parseDurationString d)) ∧
    ((chatPOST emptyMeetingDetails false (.ok "x")
        (some ⟨.meeting_request,
          some ⟨some "Ann", some "2025-03-01", some "10:00", some "2 hours",
            some "sync"⟩,
          some [], "Booked."⟩) true (.booked "https://example.test/slot")
      ).availDuration = some 2 ∧
     (chatPOST emptyMeetingDetails false (.ok "x")
        (some ⟨.meeting_request,
          some ⟨some "Ann", some "2025-03-01", some "10:00", some "2 hours",
            some "sync"⟩,
          some [], "Booked."⟩) true (.booked "https://example.test/slot")
      ).bookDuration = some 120) :=
  ⟨by decide, by decide, by decide, by decide,
    ⟨some "2 hours", by decide⟩, by decide, by decide⟩

/-- C3 counterexample: after start, a first no-input timeout speaks the
greeting — the agent is in the `speaking` state with recognition still
running — and a finalized transcript event arriving then issues a backend
call (the `onresult` handler has no state guard). -/
theorem transcript_during_speaking_triggers_call :
    (clientStep (clientStep (clientStep initClientState .startClick)
      .recStart) .timerFire).agentState = .speaking ∧
    (clientStep (clientStep (clientStep initClientState .startClick)
      .recStart) .timerFire).recognitionActive = true ∧
    (clientStep (clientStep (clientStep initClientState .startClick)
      .recStart) .timerFire).outstandingCalls = 0 ∧
    (clientStep (clientStep (clientStep (clientStep initClientState
      .startClick) .recStart) .timerFire)
      (.result ["hello"])).outstandingCalls = 1 :=
  ⟨rfl, rfl, rfl, by decide⟩

/-- C3 amended: transcript events are gated by the accumulated final
transcript only, never by the agent state — any `onresult` event whose
final transcript trims non-empty issues a new backend call and moves the
state to `thinking`, whatever state (including `thinking` or `speaking`)
the component was in. -/
theorem transcript_not_gated_by_state (s : ClientState)
    (finals : List String)
    (h : jsTrim (appendFinals s.finalTranscript finals) ≠ "") :
    (clientStep s (.result finals)).outstandingCalls =
      s.outstandingCalls + 1 ∧
    (clientStep s (.result finals)).agentState = .thinking := by
  simp only [clientStep]
  rw [if_pos h]
  exact ⟨rfl, rfl⟩

/-- Witness for the amended C3 at a concrete state and event. -/
theorem transcript_not_gated_by_state_witness :
    (clientStep initClientState (.result ["hi"])).outstandingCalls = 1 :=
  (transcript_not_gated_by_state initClientState ["hi"] (by decide)).1

/-- C4 counterexample: after a reply, the utterance-completion event moves
the state machine from `speaking` to `idle`, not to `listening`, and does
not restart speech capture. -/
theorem reply_end_goes_idle_counterexample :
    (clientStep (clientStep (clientStep (clientStep initClientState
      .startClick) .recStart) (.result ["hi"]))
      (.backendOk "ok")).agentState = .speaking ∧
    (clientStep (clientStep (clientStep (clientStep initClientState
      .startClick) .recStart) (.result ["hi"]))
      (.backendOk "ok")).utterance = some .reply ∧
    (clientStep (clientStep (clientStep (clientStep (clientStep
      initClientState .startClick) .recStart) (.result ["hi"]))
      (.backendOk "ok")) .utteranceEnd).agentState = .idle ∧
    (clientStep (clientStep (clientStep (clientStep (clientStep
      initClientState .startClick) .recStart) (.result ["hi"]))
      (.backendOk "ok")) .utteranceEnd).agentState ≠ .listening ∧
    (clientStep (clientStep (clientStep (clientStep (clientStep
      initClientState .startClick) .recStart) (.result ["hi"]))
      (.backendOk "ok")) .utteranceEnd).recognitionActive = false :=
  ⟨by decide, by decide, by decide, by decide, by decide⟩

/-- C4 amended: completing a reply utterance transitions the component to
`idle` with the response cleared and capture untouched (not restarted),
while completing the greeting utterance leaves the agent state as it was and
re-arms the no-input timer. -/
theorem utterance_end_behavior (s : ClientState) :
    (s.utterance = some .reply →
      (clientStep s .utteranceEnd).agentState = .idle ∧
      (clientStep s .utteranceEnd).response = "" ∧
      (clientStep s .utteranceEnd).recognitionActive =
        s.recognitionActive) ∧
    (s.utterance = some .greeting →
      (clientStep s .utteranceEnd).agentState = s.agentState ∧
      (clientStep s .utteranceEnd).timerArmed = true) := by
  constructor
  · intro h
    simp [clientStep, h]
  · intro h
    simp [clientStep, h]

/-- Witness for the amended C4 at a concrete speaking state. -/
theorem utterance_end_behavior_witness :
    (clientStep ⟨.speaking, false, "hi ", "ok", "hi ", false, false, false,
      0, some .reply⟩ .utteranceEnd).agentState = .idle :=
  ((utterance_end_behavior ⟨.speaking, false, "hi ", "ok", "hi ", false,
      false, false, 0, some .reply⟩).1 rfl).1

end MeetingAgent
